/-
Verification of the Pitchutcha presentation scripts against their
natural-language specification.

The development shallowly embeds the parts of the JavaScript sources that the
specification speaks about:

* `uiScrollModule.handleScroll` (src/docs/script.js, lines 504-531): the
  reading-progress computation and the auto-hiding header.  JavaScript `Number`
  division is modelled by `JSNum`, which makes the IEEE-754 non-finite results
  of a division by zero explicit.
* the theme machinery (`themeSwitcherModule` in src/docs/script.js lines
  537-567, `initThemeToggle` in src/unnamed/part_001 lines 668-683, and
  `themeManager` in src/unnamed/part_002 lines 39-85): local-storage writes and
  the `data-theme` attribute.
* `scrollAnimationModule` (src/docs/script.js lines 476-498, src/unnamed/
  part_001 lines 153-188): the IntersectionObserver reveal callback.
* the "Narrative Scroll Driver" of spec sections 2-4 (Chapter Registry,
  Chapter Resolver, Interpolation Driver).  No code under src/ implements this
  component; the definitions for it are modelled from the spec's words and are
  marked as such in their doc comments.
-/

import Mathlib

namespace Pitchutcha

/-! ## JavaScript number model

JavaScript `Number` arithmetic over the rationals, with the IEEE-754
non-finite outcomes of dividing by zero represented explicitly.  Only the
operations that `uiScrollModule.handleScroll` performs are modelled. -/

/-- A JavaScript number as produced by the scroll-progress computation:
either a finite value (modelled as a rational) or one of the IEEE-754
non-finite values `NaN`, `+Infinity`, `-Infinity`. -/
inductive JSNum where
  | finite (q : ℚ)
  | nan
  | posInf
  | negInf
deriving DecidableEq, Repr

/-- JavaScript division of two finite numbers: `a / 0` is `NaN` when `a = 0`,
`+Infinity` when `a > 0` and `-Infinity` when `a < 0`; otherwise the exact
quotient. -/
def jsDiv (a b : ℚ) : JSNum :=
  if b = 0 then
    if a = 0 then JSNum.nan
    else if 0 < a then JSNum.posInf
    else JSNum.negInf
  else JSNum.finite (a / b)

/-- JavaScript multiplication of a (possibly non-finite) number by a finite
constant, as in `(currentScrollY / scrollableHeight) * 100`. -/
def jsMulConst (x : JSNum) (c : ℚ) : JSNum :=
  match x with
  | JSNum.finite q => JSNum.finite (q * c)
  | JSNum.nan => JSNum.nan
  | JSNum.posInf =>
      if 0 < c then JSNum.posInf else if c < 0 then JSNum.negInf else JSNum.nan
  | JSNum.negInf =>
      if 0 < c then JSNum.negInf else if c < 0 then JSNum.posInf else JSNum.nan

/-! ## uiScrollModule.handleScroll (src/docs/script.js, lines 510-524) -/

/-- The page state that `uiScrollModule.handleScroll` mutates: the captured
`lastScrollY`, whether `.site-header` carries `site-header--hidden`, and the
width last assigned to `#reading-progress-bar` (`none` before the first
tick).  The progress bar is modelled as present (the `if (progressBar)`
branch taken). -/
structure UiScrollState where
  lastScrollY : ℚ
  headerHidden : Bool
  progressWidth : Option JSNum
deriving DecidableEq, Repr

/-- `uiScrollModule.handleScroll` (src/docs/script.js lines 510-524): reads
`window.scrollY`, toggles the header's hidden class by comparing with the
previous scroll position and `header.offsetHeight`, updates `lastScrollY`,
then sets the progress-bar width to
`(currentScrollY / (scrollHeight - clientHeight)) * 100` percent, with no
clamping and no guard on the divisor. -/
def handleScroll (s : UiScrollState)
    (currentScrollY headerOffsetHeight scrollHeight clientHeight : ℚ) :
    UiScrollState :=
  let headerHidden :=
    decide (s.lastScrollY < currentScrollY ∧ headerOffsetHeight < currentScrollY)
  let scrollableHeight := scrollHeight - clientHeight
  let scrollProgress := jsMulConst (jsDiv currentScrollY scrollableHeight) 100
  { lastScrollY := currentScrollY
    headerHidden := headerHidden
    progressWidth := some scrollProgress }

/-- Claim C1 counterexample: a scroll position past the container
(`scrollY = 300` with `scrollHeight = 200`, `clientHeight = 100`, so a
scrollable height of `100`) makes `handleScroll` set the progress-bar width
to `300%`: the value is extrapolated, not clamped to `100%`. -/
theorem handleScroll_progress_exceeds_100 :
    (handleScroll ⟨0, false, none⟩ 300 50 200 100).progressWidth
      = some (JSNum.finite 300) ∧ ¬ ((300 : ℚ) ≤ 100) := by
  refine ⟨?_, by norm_num⟩
  norm_num [handleScroll, jsDiv, jsMulConst]

/-- Claim C1 (amended): `handleScroll` applies no clamping; the progress-bar
width is the raw ratio `(scrollY / scrollableHeight) * 100`, and it lies in
`[0, 100]` exactly on the inputs where the scroll position already lies
within `[0, scrollableHeight]` for a positive scrollable height.  Scroll
positions past the container extrapolate beyond `100%`
(`handleScroll_progress_exceeds_100`). -/
theorem handleScroll_progress_in_range_of_bounded_scroll
    (s : UiScrollState) (y hh sh ch : ℚ)
    (hpos : 0 < sh - ch) (hy0 : 0 ≤ y) (hy1 : y ≤ sh - ch) :
    (handleScroll s y hh sh ch).progressWidth
      = some (JSNum.finite (y / (sh - ch) * 100)) ∧
    0 ≤ y / (sh - ch) * 100 ∧ y / (sh - ch) * 100 ≤ 100 := by
  have hne : sh - ch ≠ 0 := ne_of_gt hpos
  refine ⟨?_, ?_, ?_⟩
  · simp [handleScroll, jsDiv, jsMulConst, hne]
  · have h := div_nonneg hy0 (le_of_lt hpos)
    nlinarith
  · have h : y / (sh - ch) ≤ 1 := (div_le_one hpos).mpr hy1
    nlinarith

theorem handleScroll_progress_in_range_witness :
    ((0 : ℚ) < 200 - 100 ∧ (0 : ℚ) ≤ 50 ∧ (50 : ℚ) ≤ 200 - 100) ∧
    ((handleScroll ⟨0, false, none⟩ 50 0 200 100).progressWidth
        = some (JSNum.finite (50 / (200 - 100) * 100)) ∧
      0 ≤ (50 : ℚ) / (200 - 100) * 100 ∧ (50 : ℚ) / (200 - 100) * 100 ≤ 100) :=
  ⟨⟨by norm_num, by norm_num, by norm_num⟩,
    handleScroll_progress_in_range_of_bounded_scroll ⟨0, false, none⟩ 50 0 200 100
      (by norm_num) (by norm_num) (by norm_num)⟩

/-- Claim C2 counterexample: with a zero-height scroll container
(`scrollHeight = clientHeight = 100`) and `scrollY = 0`, `handleScroll`
computes `0 / 0 * 100 = NaN` and assigns it to the progress-bar width; the
division is not guarded and the result is not `0`. -/
theorem handleScroll_zero_height_nan :
    (handleScroll ⟨0, false, none⟩ 0 50 100 100).progressWidth
      = some JSNum.nan ∧
    some JSNum.nan ≠ some (JSNum.finite 0) := by
  refine ⟨?_, by simp⟩
  norm_num [handleScroll, jsDiv, jsMulConst]

/-- Claim C2 (amended): `handleScroll` performs the division unguarded; with a
zero scrollable height the computed progress is non-finite — `NaN` when the
scroll position is `0`, `+Infinity` when it is positive, `-Infinity` when
negative — and that non-finite value is what is assigned to the
progress-bar width. -/
theorem handleScroll_zero_height_nonfinite
    (s : UiScrollState) (y hh sh ch : ℚ) (hzero : sh - ch = 0) :
    (handleScroll s y hh sh ch).progressWidth
      = some (if y = 0 then JSNum.nan
              else if 0 < y then JSNum.posInf else JSNum.negInf) := by
  by_cases hy : y = 0
  · simp [handleScroll, jsDiv, jsMulConst, hzero, hy]
  · by_cases hy2 : 0 < y
    · simp [handleScroll, jsDiv, jsMulConst, hzero, hy, hy2]
    · simp [handleScroll, jsDiv, jsMulConst, hzero, hy, hy2]

theorem handleScroll_zero_height_nonfinite_witness :
    ((100 : ℚ) - 100 = 0) ∧
    (handleScroll ⟨0, false, none⟩ 5 50 100 100).progressWidth
      = some (if (5 : ℚ) = 0 then JSNum.nan
              else if 0 < (5 : ℚ) then JSNum.posInf else JSNum.negInf) :=
  ⟨by norm_num,
    handleScroll_zero_height_nonfinite ⟨0, false, none⟩ 5 50 100 100 (by norm_num)⟩

/-! ## Local storage writes (claim C3)

The repository contains exactly four `localStorage.setItem` call sites, all of
them theme writes:

* `themeSwitcherModule.applyTheme` — src/docs/script.js line 544 and the
  identical src/unnamed/part_001 line 302: key `'pitchutcha-theme'`;
* the `initThemeToggle` click handler — src/unnamed/part_001 line 681:
  key `'theme'`;
* `themeManager.applyTheme` — src/unnamed/part_002 lines 54-57 and the
  repeated copy at line 180: key `'pitchutcha_theme'`.

Each site is embedded below as a transformer of the whole local-storage map,
so that the frame condition "no other persistent state is written" can be
stated as: every key outside the theme keys is left untouched. -/

/-- The browser's local storage, as a map from keys to optionally present
string values. -/
def Store : Type := String → Option String

/-- `localStorage.setItem(k, v)`. -/
def setItem (σ : Store) (k v : String) : Store :=
  fun q => if q = k then some v else σ q

/-- Storage effect of `themeSwitcherModule.applyTheme` (src/docs/script.js
line 544; src/unnamed/part_001 line 302):
`localStorage.setItem('pitchutcha-theme', theme)`. -/
def themeSwitcherSetItem (σ : Store) (theme : String) : Store :=
  setItem σ "pitchutcha-theme" theme

/-- Storage effect of the `initThemeToggle` click handler (src/unnamed/
part_001 lines 678-682): the new theme is `'light'` when the document's
`data-theme` attribute is `'dark'` and `'dark'` otherwise, and is stored by
`localStorage.setItem('theme', newTheme)`. -/
def legacyToggleSetItem (σ : Store) (docTheme : Option String) : Store :=
  setItem σ "theme" (if docTheme = some "dark" then "light" else "dark")

/-- Storage effect of `themeManager.applyTheme` (src/unnamed/part_002 lines
54-57; repeated at line 180): `localStorage.setItem('pitchutcha_theme',
theme)` with `storageKey = 'pitchutcha_theme'`. -/
def themeManagerSetItem (σ : Store) (theme : String) : Store :=
  setItem σ "pitchutcha_theme" theme

/-- The three theme keys used by the three theme modules. -/
def themeKeys : List String := ["theme", "pitchutcha-theme", "pitchutcha_theme"]

/-- Claim C3: every `localStorage` write performed by any module in the
repository stores a theme value under that module's theme key, and nothing
else: each of the embedded write sites (which enumerate every
`localStorage.setItem` occurrence in the sources) leaves every key outside
`themeKeys` unchanged, and stores exactly the theme being applied at its own
theme key. -/
theorem storage_writes_only_theme_keys
    (σ : Store) (t : String) (d : Option String) (k : String)
    (hk : k ∉ themeKeys) :
    (themeSwitcherSetItem σ t k = σ k ∧
      legacyToggleSetItem σ d k = σ k ∧
      themeManagerSetItem σ t k = σ k) ∧
    themeSwitcherSetItem σ t "pitchutcha-theme" = some t ∧
    themeManagerSetItem σ t "pitchutcha_theme" = some t ∧
    legacyToggleSetItem σ d "theme"
      = some (if d = some "dark" then "light" else "dark") := by
  simp only [themeKeys, List.mem_cons, List.not_mem_nil, or_false,
    not_or] at hk
  obtain ⟨h1, h2, h3⟩ := hk
  refine ⟨⟨?_, ?_, ?_⟩, ?_, ?_, ?_⟩ <;>
    simp [themeSwitcherSetItem, legacyToggleSetItem, themeManagerSetItem,
      setItem, h1, h2, h3]

theorem storage_writes_only_theme_keys_witness :
    ("user-id" ∉ themeKeys) ∧
    ((themeSwitcherSetItem (fun _ => none) "dark" "user-id"
          = (fun _ => none : Store) "user-id" ∧
        legacyToggleSetItem (fun _ => none) none "user-id"
          = (fun _ => none : Store) "user-id" ∧
        themeManagerSetItem (fun _ => none) "dark" "user-id"
          = (fun _ => none : Store) "user-id") ∧
      themeSwitcherSetItem (fun _ => none) "dark" "pitchutcha-theme"
        = some "dark" ∧
      themeManagerSetItem (fun _ => none) "dark" "pitchutcha_theme"
        = some "dark" ∧
      legacyToggleSetItem (fun _ => none) none "theme"
        = some (if (none : Option String) = some "dark" then "light"
                else "dark")) :=
  ⟨by decide,
    storage_writes_only_theme_keys (fun _ => none) "dark" none "user-id"
      (by decide)⟩

/-! ## themeSwitcherModule (src/docs/script.js, lines 537-567; claim C9) -/

/-- The theme-relevant document state: the `data-theme` attribute of the
`<html>` element (`none` when absent) and the value stored under the
`'pitchutcha-theme'` local-storage key (`none` when absent). -/
structure ThemeState where
  dataTheme : Option String
  storedTheme : Option String
deriving DecidableEq, Repr

/-- `themeSwitcherModule.applyTheme` (src/docs/script.js lines 542-545): sets
the `data-theme` attribute to the given theme and stores the same string
under `'pitchutcha-theme'`. -/
def applyTheme (_s : ThemeState) (theme : String) : ThemeState :=
  { dataTheme := some theme, storedTheme := some theme }

/-- `themeSwitcherModule.toggleTheme` (src/docs/script.js lines 547-551):
reads the current `data-theme` attribute (defaulting to `'dark'` when
absent), flips `'dark'` to `'light'` and anything else to `'dark'`, and
applies the result. -/
def toggleTheme (s : ThemeState) : ThemeState :=
  let currentTheme := s.dataTheme.getD "dark"
  let newTheme := if currentTheme = "dark" then "light" else "dark"
  applyTheme s newTheme

/-- `themeSwitcherModule.init` (src/docs/script.js lines 553-564): applies the
saved theme when one is stored, otherwise `'dark'` or `'light'` according to
the system `prefers-color-scheme` query. -/
def themeSwitcherInit (s : ThemeState) (systemPrefersDark : Bool) : ThemeState :=
  match s.storedTheme with
  | some savedTheme => applyTheme s savedTheme
  | none => if systemPrefersDark then applyTheme s "dark" else applyTheme s "light"

/-- Claim C9: when the pre-existing stored theme is absent or is one of the
two values this module itself ever stores, `themeSwitcherModule.init` leaves
the document's `data-theme` attribute exactly `'light'` or `'dark'`, and the
toggle is an involution from that point: two clicks restore both the
attribute and the stored value (the whole `ThemeState`) to their prior
value. -/
theorem theme_toggle_involution (s : ThemeState) (sys : Bool)
    (h : s.storedTheme = none ∨ s.storedTheme = some "light" ∨
      s.storedTheme = some "dark") :
    ((themeSwitcherInit s sys).dataTheme = some "light" ∨
      (themeSwitcherInit s sys).dataTheme = some "dark") ∧
    toggleTheme (toggleTheme (themeSwitcherInit s sys))
      = themeSwitcherInit s sys := by
  rcases h with h | h | h <;>
    cases sys <;>
      simp [themeSwitcherInit, h, applyTheme, toggleTheme]

theorem theme_toggle_involution_witness :
    ((⟨none, none⟩ : ThemeState).storedTheme = none ∨
      (⟨none, none⟩ : ThemeState).storedTheme = some "light" ∨
      (⟨none, none⟩ : ThemeState).storedTheme = some "dark") ∧
    (((themeSwitcherInit ⟨none, none⟩ true).dataTheme = some "light" ∨
        (themeSwitcherInit ⟨none, none⟩ true).dataTheme = some "dark") ∧
      toggleTheme (toggleTheme (themeSwitcherInit ⟨none, none⟩ true))
        = themeSwitcherInit ⟨none, none⟩ true) :=
  ⟨Or.inl rfl, theme_toggle_involution ⟨none, none⟩ true (Or.inl rfl)⟩

/-! ## Narrative Scroll Driver (spec sections 2-4; claims C4-C8)

No code under src/ implements the spec's Chapter Registry, Chapter Resolver,
Orientation Target Table or Interpolation/Playback Driver: the repository's
sources contain no 3D globe, chapter table or orientation state at all.  The
definitions in this section are therefore modelled from the spec's words, as
their doc comments record, and the claims about them are settled against
this model. -/

/-- Modelled from the spec: the target 3D rotation/camera state of a chapter
(spec section 3, `orientation: { rotationY, rotationX, cameraZ }`).  No
source file defines such a record. -/
structure Orientation where
  rotationY : ℚ
  rotationX : ℚ
  cameraZ : ℚ
deriving DecidableEq, Repr

/-- Modelled from the spec: the initial/default OrientationState (spec
section 7: the sentinel chapter's "orientation equals the initial/default
state").  The concrete values are immaterial to every claim. -/
def defaultOrientation : Orientation := ⟨0, 0, 1⟩

/-- Modelled from the spec: a Chapter record (spec section 3), with its
`domAnchorOffset` already normalized to a boundary in `[0, 1]` as the
Resolver's algorithm prescribes (spec section 4.3). -/
structure Chapter where
  id : String
  boundary : ℚ
  orientation : Orientation
deriving DecidableEq, Repr

/-- Modelled from the spec: the "no-op" sentinel chapter returned for an
empty Chapter Registry, whose orientation equals the initial/default state
(spec section 7). -/
def sentinelChapter : Chapter := ⟨"sentinel", 0, defaultOrientation⟩

/-- Modelled from the spec: the Scroll Position Sampler's clamping of
ScrollProgress to `[0, 1]` (spec section 4.2, "Must clamp to [0, 1]"). -/
def clampProgress (p : ℚ) : ℚ := max 0 (min 1 p)

/-- Modelled from the spec: the index of the active chapter (spec section
4.3): the number of boundaries `≤ ScrollProgress` minus one, which on a
registry with monotonically increasing boundaries (spec section 3) is the
index of the chapter with the greatest boundary `≤ ScrollProgress`; when no
boundary qualifies the truncated subtraction yields `0`, the first chapter,
as the spec's default demands. -/
def resolveIdx (reg : List Chapter) (p : ℚ) : Nat :=
  (reg.countP fun c => decide (c.boundary ≤ p)) - 1

/-- Modelled from the spec: the Chapter Resolver (spec section 4.3), total on
every registry: an empty registry yields the sentinel chapter (spec section
7) and no error is raised. -/
def resolveChapter (reg : List Chapter) (p : ℚ) : Chapter :=
  reg.getD (resolveIdx reg p) sentinelChapter

/-- Modelled from the spec: the registry of the boundary scenario (spec
section 8): chapters at normalized boundaries `[0, 1/4, 1/2, 3/4]` named
`humanity`, `science`, `technology`, `future`.  The orientation targets are
arbitrary distinct values; no claim depends on them. -/
def narrativeRegistry : List Chapter :=
  [⟨"humanity", 0, ⟨0, 0, 1⟩⟩,
   ⟨"science", 1/4, ⟨1/2, 0, 1⟩⟩,
   ⟨"technology", 1/2, ⟨1, 1/4, 2⟩⟩,
   ⟨"future", 3/4, ⟨3/2, 1/2, 3⟩⟩]

/-- On a registry with strictly increasing boundaries, `resolveIdx` really is
the greatest index whose boundary is `≤ p` whenever some boundary qualifies:
the chapter it selects has boundary `≤ p`, and every chapter with boundary
`≤ p` sits at an index `≤ resolveIdx`.  This justifies the counting
definition against the spec's words "the chapter with the greatest boundary
≤ ScrollProgress". -/
theorem resolveIdx_greatest (reg : List Chapter) (p : ℚ)
    (hsorted : List.Pairwise (fun a b => a.boundary < b.boundary) reg)
    (j : Nat) (hj : j < reg.length)
    (hq : (reg.getD j sentinelChapter).boundary ≤ p) :
    j ≤ resolveIdx reg p := by
  have hqj : reg[j].boundary ≤ p := by
    rwa [List.getD_eq_getElem reg sentinelChapter hj] at hq
  have htake : ∀ c ∈ reg.take (j + 1), c.boundary ≤ p := by
    intro c hc
    rw [List.mem_take_iff_getElem] at hc
    obtain ⟨i, hi, hget⟩ := hc
    have hilen : i < reg.length := lt_of_lt_of_le hi (min_le_right _ _)
    have hij : i < j + 1 := lt_of_lt_of_le hi (min_le_left _ _)
    subst hget
    rcases Nat.lt_or_ge i j with hlt | hge
    · exact le_of_lt (lt_of_lt_of_le
        (List.pairwise_iff_getElem.mp hsorted i j hilen hj hlt) hqj)
    · have hij' : i = j := Nat.le_antisymm (Nat.lt_succ_iff.mp hij) hge
      subst hij'
      exact hqj
  have hcount : j + 1 ≤ reg.countP fun c => decide (c.boundary ≤ p) := by
    have h1 : (reg.take (j + 1)).countP (fun c => decide (c.boundary ≤ p))
        = (reg.take (j + 1)).length := by
      rw [List.countP_eq_length]
      intro c hc
      exact decide_eq_true (htake c hc)
    have h2 : (reg.take (j + 1)).length = j + 1 := by
      rw [List.length_take]
      exact min_eq_left (Nat.succ_le_of_lt hj)
    calc j + 1
        = (reg.take (j + 1)).countP (fun c => decide (c.boundary ≤ p)) := by
          rw [h1, h2]
      _ ≤ reg.countP fun c => decide (c.boundary ≤ p) := by
          conv_rhs => rw [← List.take_append_drop (j + 1) reg]
          rw [List.countP_append]
          exact Nat.le_add_right _ _
  have hfin : j + 1 - 1 ≤ (reg.countP fun c => decide (c.boundary ≤ p)) - 1 :=
    Nat.sub_le_sub_right hcount 1
  simpa [resolveIdx] using hfin

/-- Claim C4: on the boundary-scenario registry, the spec-modelled Chapter
Resolver sends progress `0.6` to `technology`, progress `0.75` to `future`
(boundary inclusive), and progress `-0.1` after clamping to `humanity`. -/
theorem resolver_boundary_scenario :
    (resolveChapter narrativeRegistry (6/10)).id = "technology" ∧
    (resolveChapter narrativeRegistry (3/4)).id = "future" ∧
    (resolveChapter narrativeRegistry (clampProgress (-1/10))).id
      = "humanity" := by
  have hc : clampProgress (-1/10) = 0 := by
    rw [clampProgress, min_eq_right (by norm_num), max_eq_left (by norm_num)]
  have h1 : resolveIdx narrativeRegistry (6/10) = 2 := by
    norm_num [resolveIdx, narrativeRegistry, List.countP_cons, List.countP_nil,
      decide_eq_true_eq]
  have h2 : resolveIdx narrativeRegistry (3/4) = 3 := by
    norm_num [resolveIdx, narrativeRegistry, List.countP_cons, List.countP_nil,
      decide_eq_true_eq]
  have h3 : resolveIdx narrativeRegistry 0 = 0 := by
    norm_num [resolveIdx, narrativeRegistry, List.countP_cons, List.countP_nil,
      decide_eq_true_eq]
  refine ⟨?_, ?_, ?_⟩
  · simp only [resolveChapter, h1]; rfl
  · simp only [resolveChapter, h2]; rfl
  · simp only [resolveChapter, hc, h3]; rfl

/-- Claim C5: for every registry with monotonically increasing boundaries and
all progress values `p1 ≤ p2`, the chapter the spec-modelled Resolver picks
for `p1` is not later in narrative order (registry index) than the one it
picks for `p2`. -/
theorem resolver_monotone (reg : List Chapter) (p1 p2 : ℚ)
    (_hsorted : List.Chain' (fun a b => a.boundary < b.boundary) reg)
    (hp : p1 ≤ p2) :
    resolveIdx reg p1 ≤ resolveIdx reg p2 := by
  have h : (reg.countP fun c => decide (c.boundary ≤ p1))
      ≤ reg.countP fun c => decide (c.boundary ≤ p2) := by
    apply List.countP_mono_left
    intro c _ hc
    simp only [decide_eq_true_eq] at hc ⊢
    exact le_trans hc hp
  exact Nat.sub_le_sub_right h 1

theorem resolver_monotone_witness :
    (List.Chain' (fun a b => a.boundary < b.boundary) narrativeRegistry ∧
      (1 : ℚ)/10 ≤ 1/2) ∧
    resolveIdx narrativeRegistry (1/10) ≤ resolveIdx narrativeRegistry (1/2) :=
  ⟨⟨by norm_num [narrativeRegistry, List.chain'_cons, List.chain'_singleton],
      by norm_num⟩,
    resolver_monotone narrativeRegistry (1/10) (1/2)
      (by norm_num [narrativeRegistry, List.chain'_cons, List.chain'_singleton])
      (by norm_num)⟩

/-- Modelled from the spec: a Resolver call advancing a call counter (the
only per-call state the spec contemplates when it rules out "hidden
counters", section 4.3). -/
structure ResolverState where
  calls : Nat
deriving DecidableEq, Repr

/-- Modelled from the spec: one Resolver invocation, returning the resolved
chapter and the advanced call state. -/
def resolveTick (reg : List Chapter) (p : ℚ) (s : ResolverState) :
    Chapter × ResolverState :=
  (resolveChapter reg p, ⟨s.calls + 1⟩)

/-- Claim C6: the spec-modelled Resolver is idempotent and free of hidden
state: two consecutive calls with identical registry and ScrollProgress
return the identical chapter and bit-identical orientation, irrespective of
the call counter. -/
theorem resolver_idempotent (reg : List Chapter) (p : ℚ) (s : ResolverState) :
    (resolveTick reg p s).1
        = (resolveTick reg p (resolveTick reg p s).2).1 ∧
    (resolveTick reg p s).1.orientation
        = (resolveTick reg p (resolveTick reg p s).2).1.orientation :=
  ⟨rfl, rfl⟩

/-- Claim C7: on the empty Chapter Registry the spec-modelled Resolver
returns, for every ScrollProgress, the no-op sentinel chapter, whose
orientation is the initial/default state; being a total function it does so
without raising any error. -/
theorem resolver_empty_registry_sentinel (p : ℚ) :
    resolveChapter [] p = sentinelChapter ∧
    (resolveChapter [] p).orientation = defaultOrientation :=
  ⟨rfl, rfl⟩

/-- Modelled from the spec: the orientation the Interpolation/Playback Driver
targets at a given ScrollProgress — the resolved chapter's orientation after
clamping (spec sections 4.2, 4.3, 4.5). -/
def orientationAt (reg : List Chapter) (p : ℚ) : Orientation :=
  (resolveChapter reg (clampProgress p)).orientation

/-- Modelled from the spec: one driver tick.  Spec section 4.5 makes the new
OrientationState "a pure function of scroll position, not of elapsed time or
direction", so the previous state is not consulted. -/
def driverStep (reg : List Chapter) (_s : Orientation) (p : ℚ) : Orientation :=
  orientationAt reg p

/-- Modelled from the spec: running the driver over a whole scroll trace,
threading the mutable OrientationState through the ticks. -/
def runScroll (reg : List Chapter) (s : Orientation) (ps : List ℚ) :
    Orientation :=
  ps.foldl (driverStep reg) s

/-- Claim C8: the spec-modelled driver has no hysteresis: scrolling forward
from `a` to `b` and back to `a` leaves exactly the OrientationState of a
direct query at `a`, and any two runs — whatever their initial states and
prior scroll histories — that end at the same ScrollProgress produce
identical orientation output. -/
theorem driver_pure_function_of_progress (reg : List Chapter)
    (s1 s2 : Orientation) (ps1 ps2 : List ℚ) (a b : ℚ) :
    runScroll reg s1 [a, b, a] = orientationAt reg a ∧
    runScroll reg s1 (ps1 ++ [a]) = runScroll reg s2 (ps2 ++ [a]) := by
  constructor
  · rfl
  · simp [runScroll, List.foldl_append, driverStep]

/-! ## scrollAnimationModule (src/docs/script.js, lines 476-498; claim C10)

The IntersectionObserver callback adds `is-inview` to an intersecting target
and immediately unobserves it; it never removes the class.  An element's life
is modelled as the fold of its intersection events (the `isIntersecting`
flag of each delivered entry) over a two-bit state; the `observed` bit
guards the callback, reflecting that entries are delivered only while the
element is observed. -/

/-- The per-element state of the scroll-reveal machinery: whether the element
currently carries the `is-inview` class, and whether the observer is still
observing it. -/
structure ObsState where
  inview : Bool
  observed : Bool
deriving DecidableEq, Repr

/-- The state of an element right after `scrollAnimationModule.init` calls
`observer.observe(el)`: class absent, element observed. -/
def obsInit : ObsState := ⟨false, true⟩

/-- One intersection event processed by `observerCallback` (src/docs/
script.js lines 482-489; src/unnamed/part_001 lines 165-175): when the entry
is intersecting and the element is still observed, the callback adds
`is-inview` and unobserves the element; otherwise nothing changes (a
non-intersecting entry only falls through the `if`, and an unobserved
element receives no entries at all). -/
def observerStep (s : ObsState) (isIntersecting : Bool) : ObsState :=
  if isIntersecting && s.observed then ⟨true, false⟩ else s

/-- The element state after a whole sequence of intersection events. -/
def observerRun (s : ObsState) (evs : List Bool) : ObsState :=
  evs.foldl observerStep s

/-- How many events of a sequence cause the `is-inview` class to be added
(the class appearing where it was absent). -/
def observerAdds : ObsState → List Bool → Nat
  | _, [] => 0
  | s, e :: evs =>
    (if (observerStep s e).inview && !s.inview then 1 else 0)
      + observerAdds (observerStep s e) evs

/-- Once the observer has let go of an element, no event sequence changes its
state, and no further class additions happen. -/
theorem observerRun_unobserved (evs : List Bool) (s : ObsState)
    (h : s.observed = false) :
    observerRun s evs = s ∧ observerAdds s evs = 0 := by
  induction evs generalizing s with
  | nil => exact ⟨rfl, rfl⟩
  | cons e evs ih =>
    have hstep : observerStep s e = s := by
      simp [observerStep, h]
    have := ih s h
    constructor
    · simpa [observerRun, List.foldl_cons, hstep] using this.1
    · simp [observerAdds, hstep, this.2]

/-- Starting from a freshly observed element, `inview` and `observed` are
always opposite: the class is present exactly when the element has already
been released by the observer. -/
theorem observerRun_inview_not_observed (evs : List Bool) :
    (observerRun obsInit evs).inview = !(observerRun obsInit evs).observed := by
  suffices h : ∀ s : ObsState, s.inview = !s.observed →
      (observerRun s evs).inview = !(observerRun s evs).observed by
    exact h obsInit rfl
  induction evs with
  | nil => intro s hs; simpa [observerRun] using hs
  | cons e evs ih =>
    intro s hs
    have hstep : (observerStep s e).inview = !(observerStep s e).observed := by
      by_cases hc : (e && s.observed) = true
      · simp [observerStep, hc]
      · simpa [observerStep, hc] using hs
    simpa [observerRun, List.foldl_cons] using ih (observerStep s e) hstep

/-- Splitting an event sequence splits the count of class additions. -/
theorem observerAdds_append (evs more : List Bool) (s : ObsState) :
    observerAdds s (evs ++ more)
      = observerAdds s evs + observerAdds (observerRun s evs) more := by
  induction evs generalizing s with
  | nil => simp [observerAdds, observerRun]
  | cons e evs ih =>
    have h1 : observerAdds s ((e :: evs) ++ more)
        = (if ((observerStep s e).inview && !s.inview) = true then 1 else 0)
          + observerAdds (observerStep s e) (evs ++ more) := rfl
    have h2 : observerAdds s (e :: evs)
        = (if ((observerStep s e).inview && !s.inview) = true then 1 else 0)
          + observerAdds (observerStep s e) evs := rfl
    have h3 : observerRun s (e :: evs) = observerRun (observerStep s e) evs := rfl
    rw [h1, h2, h3, ih (observerStep s e)]
    omega

/-- Whatever its starting state, an element is revealed at most once over any
event sequence: as soon as the class is added the element is unobserved, and
an unobserved element never changes again. -/
theorem observerAdds_le_one (evs : List Bool) (s : ObsState) :
    observerAdds s evs ≤ 1 := by
  induction evs generalizing s with
  | nil => simp [observerAdds]
  | cons e evs ih =>
    have hunfold : observerAdds s (e :: evs)
        = (if ((observerStep s e).inview && !s.inview) = true then 1 else 0)
          + observerAdds (observerStep s e) evs := rfl
    by_cases hc : (e && s.observed) = true
    · have hstep : observerStep s e = ⟨true, false⟩ := by
        simp [observerStep, hc]
      have hrest : observerAdds (⟨true, false⟩ : ObsState) evs = 0 :=
        (observerRun_unobserved evs ⟨true, false⟩ rfl).2
      rw [hunfold, hstep, hrest]
      split <;> omega
    · have hstep : observerStep s e = s := by
        simp [observerStep, hc]
      have hz : (if (s.inview && !s.inview) = true then 1 else 0) = 0 := by
        cases s.inview <;> simp
      rw [hunfold, hstep, hz]
      simpa using ih s

/-- Claim C10: the scroll-reveal module only ever adds `is-inview` and
unobserves on first intersection.  For any element observed at page load,
once some event history has made it visible, every further event history
leaves the class in place (it is never removed) with the element
unobserved, and over the entire combined history the reveal is triggered at
most once. -/
theorem scroll_reveal_permanent_once (evs more : List Bool)
    (h : (observerRun obsInit evs).inview = true) :
    (observerRun obsInit (evs ++ more)).inview = true ∧
    (observerRun obsInit (evs ++ more)).observed = false ∧
    observerAdds obsInit (evs ++ more) ≤ 1 := by
  have hobs : (observerRun obsInit evs).observed = false := by
    have := observerRun_inview_not_observed evs
    rw [h] at this
    cases hcase : (observerRun obsInit evs).observed
    · rfl
    · rw [hcase] at this; simp at this
  have hsplit : observerRun obsInit (evs ++ more)
      = observerRun (observerRun obsInit evs) more := by
    simp [observerRun, List.foldl_append]
  have hfix := observerRun_unobserved more (observerRun obsInit evs) hobs
  refine ⟨?_, ?_, ?_⟩
  · rw [hsplit, hfix.1]; exact h
  · rw [hsplit, hfix.1]; exact hobs
  · rw [observerAdds_append, hfix.2, Nat.add_zero]
    exact observerAdds_le_one evs obsInit

theorem scroll_reveal_permanent_once_witness :
    (observerRun obsInit [true]).inview = true ∧
    ((observerRun obsInit ([true] ++ [false, true])).inview = true ∧
      (observerRun obsInit ([true] ++ [false, true])).observed = false ∧
      observerAdds obsInit ([true] ++ [false, true]) ≤ 1) :=
  ⟨by decide, scroll_reveal_permanent_once [true] [false, true] (by decide)⟩

end Pitchutcha
